import Mathlib

/-
Shallow embedding of climpred's classes.py: the prediction-ensemble
bookkeeping layer (dimension/variable validators, PerfectModelEnsemble,
HindcastEnsemble) of the Zeitsperre/climpred repository.

Modelling conventions:
* An xarray Dataset is reduced to exactly what classes.py inspects:
  its dimension names (unique, in storage order), its data-variable
  names (unique, in storage order), and the size of its lead
  coordinate (read only by the dead nlags default computation).
* The external numerical engines (compute_perfect_model,
  compute_hindcast, compute_uninitialized, compute_persistence,
  bootstrap_perfect_model from the prediction/bootstrap modules) are
  opaque: each call is represented by a constructor of CompResult
  recording exactly the arguments classes.py passes to it.
* Python exceptions become Except results.  Error payloads record the
  structured content of the message that the claims inspect (the
  mismatched-dimension set for DimensionError, the two variable lists
  for VariableError); the remaining message texts are elided.
* Python dicts (the reference registry of HindcastEnsemble) become
  association lists in insertion order; `d[k]` is List.lookup.
  The empty-dict sentinels used for an absent control/uninitialized
  dataset become Option Dataset with none for `{}`; Python's
  `len(self.control)` (0 for the sentinel, the number of data
  variables for a Dataset) becomes dslen.
* Mutating methods (add_control, add_reference, add_uninitialized)
  become functions returning the new state paired with an optional
  error; as in the source, all validation precedes the assignment, so
  the state returned alongside an error is the unchanged input state.
-/

namespace Climpred

/-- An xarray Dataset reduced to what classes.py inspects: dimension
names, data-variable names (both unique, in storage order) and the
size of the lead coordinate. -/
structure Dataset where
  dims : List String
  data_vars : List String
  lead_size : Nat
  deriving DecidableEq

/-- An xarray DataArray obtained as `ds[name]` (a single-variable slice
of a Dataset), as handed to bootstrap_perfect_model. -/
structure DataArray where
  ds : Dataset
  var : String
  deriving DecidableEq

/-- The exceptions classes.py raises, with the structured payload of
the message where a claim inspects it.  DimensionError appears twice:
once for a missing init/lead dimension at construction and once for a
reference/initialized dimension mismatch (whose message reports the
set of mismatched dimensions).  keyError models Python's KeyError from
`ds[var]` / `dict[key]` on a missing name, attributeError models
Python's AttributeError from reading `.data_vars` off the `{}`
sentinel. -/
inductive CpError where
  | dimensionErrorMissingInitLead : CpError
  | dimensionErrorMismatch (unmatchedDims : Finset String) : CpError
  | variableError (initVars refVars : List String) : CpError
  | datasetError : CpError
  | keyError (key : String) : CpError
  | attributeError : CpError
  deriving DecidableEq

/-- Whether an error is (either form of) climpred's DimensionError. -/
def CpError.isDimensionError : CpError → Bool
  | .dimensionErrorMissingInitLead => true
  | .dimensionErrorMismatch _ => true
  | _ => false

/-- A call into one of the external computation engines, recording
exactly the arguments classes.py passes.  The engines themselves are
external collaborators and are left opaque. -/
inductive CompResult where
  | perfectModel (initialized control : Dataset) (metric comparison : String)
  | hindcast (hind reference : Dataset) (metric comparison : String)
  | uninitialized (uninit reference : Dataset) (metric comparison : String)
  | persistence (initialized reference : Dataset) (metric : String)
  | bootstrapPM (initialized control : DataArray) (metric comparison : String)
      (sig : Nat) (nboot : Nat) (pers_sig : Option Nat)
  deriving DecidableEq

/-- A method's return value: either a single engine result or a
name-keyed mapping of engine results (Python returns a Dataset or a
dict of Datasets depending on how many references exist). -/
inductive SkillReturn where
  | single (res : CompResult)
  | mapping (entries : List (String × CompResult))
  deriving DecidableEq

/-- Python `len` of an attribute holding either the `{}` sentinel
(0) or an xarray Dataset (its number of data variables). -/
def dslen : Option Dataset → Nat
  | none => 0
  | some d => d.data_vars.length

/-- Reads a dataset attribute past its presence guard; the sentinel
case is unreachable from the guarded call sites. -/
def dsGet : Option Dataset → Dataset
  | none => ⟨[], [], 0⟩
  | some d => d

/-- Python dict indexing `d[k]` at a call site where `k` is known to be
a key of `d` (a loop over the dict's own keys); the default is
unreachable there. -/
def dictGet (l : List (String × Dataset)) (k : String) : Dataset :=
  dsGet (l.lookup k)

/-- Python dict assignment `d[k] = v`: overwrites in place when the key
exists, appends otherwise. -/
def dictInsert (l : List (String × Dataset)) (k : String) (v : Dataset) :
    List (String × Dataset) :=
  if l.any (fun p => p.1 == k) then
    l.map (fun p => if p.1 == k then (k, v) else p)
  else l ++ [(k, v)]

/-- classes.py _check_prediction_ensemble_dimensions: the prediction
object must contain the dimensions init and lead. -/
def _check_prediction_ensemble_dimensions (xobj : Dataset) : Except CpError Unit :=
  if "init" ∈ xobj.dims ∧ "lead" ∈ xobj.dims then .ok ()
  else .error .dimensionErrorMissingInitLead

/-- classes.py _check_reference_dimensions: rename init to time in the
initialized dims, remove lead and member when present, and require the
resulting set to equal the candidate's dimension set; on failure the
error reports the symmetric difference (Python's `^` on sets). -/
def _check_reference_dimensions (init ref : Dataset) : Except CpError Unit :=
  let init_dims := init.dims.map (fun d => if d = "init" then "time" else d)
  let init_dims := (init_dims.erase "lead").erase "member"
  if ref.dims.toFinset = init_dims.toFinset then .ok ()
  else .error (.dimensionErrorMismatch
    ((ref.dims.toFinset \ init_dims.toFinset) ∪ (init_dims.toFinset \ ref.dims.toFinset)))

/-- classes.py _check_reference_vars_match_initialized: the two
datasets must share at least one data variable; the error message
carries both variable lists. -/
def _check_reference_vars_match_initialized (init ref : Dataset) : Except CpError Unit :=
  let init_vars := init.data_vars
  let ref_vars := ref.data_vars
  if init_vars.toFinset ∩ ref_vars.toFinset = ∅ then
    .error (.variableError init_vars ref_vars)
  else .ok ()

/-- State of a PerfectModelEnsemble: the initialized dataset (held by
the PredictionEnsemble base), the uninitialized companion and the
control run, both starting as the `{}` sentinel (none). -/
structure PerfectModelEnsemble where
  initialized : Dataset
  uninitialized : Option Dataset
  control : Option Dataset
  deriving DecidableEq

/-- State of a HindcastEnsemble: the initialized dataset, the
uninitialized companion, and the name-keyed reference registry. -/
structure HindcastEnsemble where
  initialized : Dataset
  uninitialized : Option Dataset
  reference : List (String × Dataset)
  deriving DecidableEq

/-- PredictionEnsemble.__init__ specialized to PerfectModelEnsemble:
validate init/lead dims, store the dataset as initialized, start with
empty uninitialized and control. -/
def mkPerfectModelEnsemble (xobj : Dataset) : Except CpError PerfectModelEnsemble :=
  match _check_prediction_ensemble_dimensions xobj with
  | .error e => .error e
  | .ok _ => .ok ⟨xobj, none, none⟩

/-- PredictionEnsemble.__init__ specialized to HindcastEnsemble:
validate init/lead dims, store the dataset as initialized, start with
empty uninitialized and reference registry. -/
def mkHindcastEnsemble (xobj : Dataset) : Except CpError HindcastEnsemble :=
  match _check_prediction_ensemble_dimensions xobj with
  | .error e => .error e
  | .ok _ => .ok ⟨xobj, none, []⟩

/-- PerfectModelEnsemble.add_control: dimension check, variable check,
then (and only then) assignment of the control. -/
def PerfectModelEnsemble.add_control (self : PerfectModelEnsemble) (xobj : Dataset) :
    PerfectModelEnsemble × Option CpError :=
  match _check_reference_dimensions self.initialized xobj with
  | .error e => (self, some e)
  | .ok _ =>
    match _check_reference_vars_match_initialized self.initialized xobj with
    | .error e => (self, some e)
    | .ok _ => ({ self with control := some xobj }, none)

/-- xarray Dataset.drop of a list of variable names. -/
def Dataset.drop (self : Dataset) (vars : List String) : Dataset :=
  { self with data_vars := self.data_vars.filter (fun v => decide (v ∉ vars)) }

/-- xarray `ds[name]`: a single-variable slice, KeyError when the
variable is absent. -/
def Dataset.getVar (self : Dataset) (name : String) : Except CpError DataArray :=
  if name ∈ self.data_vars then .ok ⟨self, name⟩ else .error (.keyError name)

/-- PerfectModelEnsemble.compute_metric: DatasetError without a
control, otherwise delegate to compute_perfect_model with
(initialized, control, metric, comparison). -/
def PerfectModelEnsemble.compute_metric (self : PerfectModelEnsemble)
    (metric comparison : String) : Except CpError CompResult :=
  if dslen self.control = 0 then .error .datasetError
  else .ok (.perfectModel self.initialized (dsGet self.control) metric comparison)

/-- PerfectModelEnsemble.compute_uninitialized: DatasetError without an
uninitialized ensemble, otherwise delegate to compute_perfect_model
with (uninitialized, control, metric, comparison). -/
def PerfectModelEnsemble.compute_uninitialized (self : PerfectModelEnsemble)
    (metric comparison : String) : Except CpError CompResult :=
  if dslen self.uninitialized = 0 then .error .datasetError
  else .ok (.perfectModel (dsGet self.uninitialized) (dsGet self.control) metric comparison)

/-- PerfectModelEnsemble.compute_persistence: DatasetError without a
control; computes the nlags default (length of initialized's lead
dimension) but, as in the source, never passes it on; delegates to
compute_persistence with (initialized, control, metric). -/
def PerfectModelEnsemble.compute_persistence (self : PerfectModelEnsemble)
    (nlags : Option Nat) (metric : String) : Except CpError CompResult :=
  if dslen self.control = 0 then .error .datasetError
  else
    let _nlags := nlags.getD self.initialized.lead_size
    .ok (.persistence self.initialized (dsGet self.control) metric)

/-- The per-variable loop of PerfectModelEnsemble.bootstrap: for each
variable of the control, index initialized and control by it (either
indexing can raise KeyError) and call bootstrap_perfect_model,
collecting results keyed by variable name. -/
def bootstrapLoop (initialized c : Dataset) (metric comparison : String)
    (sig nboot : Nat) (pers_sig : Option Nat) :
    List String → Except CpError (List (String × CompResult))
  | [] => .ok []
  | v :: vs =>
    match initialized.getVar v with
    | .error e => .error e
    | .ok i =>
      match c.getVar v with
      | .error e => .error e
      | .ok cv =>
        match bootstrapLoop initialized c metric comparison sig nboot pers_sig vs with
        | .error e => .error e
        | .ok l => .ok ((v, .bootstrapPM i cv metric comparison sig nboot pers_sig) :: l)

/-- PerfectModelEnsemble.bootstrap: DatasetError without a control;
with var given, one bootstrap_perfect_model call on that variable's
slices; with var omitted and exactly one initialized data variable,
one call on that variable (the Python loop `for var in
self.initialized.data_vars: var = var` leaves var bound to the last,
here unique, variable); otherwise one call per variable of the control
(not of initialized), collected into a variable-keyed mapping. -/
def PerfectModelEnsemble.bootstrap (self : PerfectModelEnsemble) (var : Option String)
    (metric comparison : String) (sig : Nat) (bootstrap : Nat) (pers_sig : Option Nat) :
    Except CpError SkillReturn :=
  if dslen self.control = 0 then .error .datasetError
  else
    let c := dsGet self.control
    match var with
    | some v =>
      match self.initialized.getVar v with
      | .error e => .error e
      | .ok i =>
        match c.getVar v with
        | .error e => .error e
        | .ok cv =>
          .ok (.single (.bootstrapPM i cv metric comparison sig bootstrap pers_sig))
    | none =>
      if self.initialized.data_vars.length = 1 then
        let v := self.initialized.data_vars.getLastD ""
        match self.initialized.getVar v with
        | .error e => .error e
        | .ok i =>
          match c.getVar v with
          | .error e => .error e
          | .ok cv =>
            .ok (.single (.bootstrapPM i cv metric comparison sig bootstrap pers_sig))
      else
        match bootstrapLoop self.initialized c metric comparison sig bootstrap pers_sig
            c.data_vars with
        | .error e => .error e
        | .ok l => .ok (.mapping l)

/-- HindcastEnsemble.add_reference: dimension check, variable check,
then assignment into the reference registry under the given name. -/
def HindcastEnsemble.add_reference (self : HindcastEnsemble) (xobj : Dataset)
    (name : String) : HindcastEnsemble × Option CpError :=
  match _check_reference_dimensions self.initialized xobj with
  | .error e => (self, some e)
  | .ok _ =>
    match _check_reference_vars_match_initialized self.initialized xobj with
    | .error e => (self, some e)
    | .ok _ => ({ self with reference := dictInsert self.reference name xobj }, none)

/-- HindcastEnsemble.add_uninitialized: dimension check, variable
check, then assignment of the uninitialized dataset. -/
def HindcastEnsemble.add_uninitialized (self : HindcastEnsemble) (xobj : Dataset) :
    HindcastEnsemble × Option CpError :=
  match _check_reference_dimensions self.initialized xobj with
  | .error e => (self, some e)
  | .ok _ =>
    match _check_reference_vars_match_initialized self.initialized xobj with
    | .error e => (self, some e)
    | .ok _ => ({ self with uninitialized := some xobj }, none)

/-- `self.reference[name]`: dict lookup, KeyError when absent. -/
def HindcastEnsemble.getReference (self : HindcastEnsemble) (name : String) :
    Except CpError Dataset :=
  match self.reference.lookup name with
  | some d => .ok d
  | none => .error (.keyError name)

/-- The loop body of HindcastEnsemble._vars_to_drop: take the set
intersection of the two variable lists (Python's set is order-free and
duplicate-free, hence the dedup; its iteration order is unspecified
and the claims are stated up to it) and remove each shared variable
from both lists (Python list.remove drops the first occurrence). -/
def dropLists (init_vars ref_vars : List String) : List String × List String :=
  ((ref_vars.filter (fun v => decide (v ∈ init_vars))).dedup).foldl
    (fun p v => (p.1.erase v, p.2.erase v)) (init_vars, ref_vars)

/-- HindcastEnsemble._vars_to_drop: variables of the initialized (or,
with init false, uninitialized) dataset and of the chosen reference
that the other side lacks; reading `.data_vars` off the `{}` sentinel
is Python's AttributeError, `self.reference[ref]` a KeyError. -/
def HindcastEnsemble._vars_to_drop (self : HindcastEnsemble) (ref : String)
    (init : Bool := true) : Except CpError (List String × List String) :=
  match (if init then .ok self.initialized.data_vars
         else match self.uninitialized with
              | some u => .ok u.data_vars
              | none => .error CpError.attributeError :
           Except CpError (List String)) with
  | .error e => .error e
  | .ok init_vars =>
    match self.getReference ref with
    | .error e => .error e
    | .ok refds => .ok (dropLists init_vars refds.data_vars)

/-- The single-reference block of HindcastEnsemble.compute_metric:
compute the drop lists against the named reference and delegate to
compute_hindcast on the variable-aligned datasets. -/
def HindcastEnsemble.computeMetricRef (self : HindcastEnsemble)
    (r metric comparison : String) : Except CpError CompResult :=
  match self._vars_to_drop r true with
  | .error e => .error e
  | .ok dp =>
    match self.getReference r with
    | .error e => .error e
    | .ok ds =>
      .ok (.hindcast (self.initialized.drop dp.1) (ds.drop dp.2) metric comparison)

/-- The value computeMetricRef yields on its ok path (the error
branch is unreachable at the call sites where this is used). -/
def HindcastEnsemble.metricValue (self : HindcastEnsemble)
    (r metric comparison : String) : CompResult :=
  match self.computeMetricRef r metric comparison with
  | .ok v => v
  | .error _ => .hindcast self.initialized self.initialized metric comparison

/-- The all-references loop of HindcastEnsemble.compute_metric. -/
def HindcastEnsemble.metricLoop (self : HindcastEnsemble) (metric comparison : String) :
    List (String × Dataset) → Except CpError (List (String × CompResult))
  | [] => .ok []
  | p :: ps =>
    match self.computeMetricRef p.1 metric comparison with
    | .error e => .error e
    | .ok v =>
      match self.metricLoop metric comparison ps with
      | .error e => .error e
      | .ok l => .ok ((p.1, v) :: l)

/-- HindcastEnsemble.compute_metric: DatasetError when the reference
registry is empty; with refname given, the single-reference block;
with refname omitted and exactly one reference, the same block on
`list(self.reference.keys())[0]`; otherwise the loop over all
references returning a name-keyed mapping. -/
def HindcastEnsemble.compute_metric (self : HindcastEnsemble) (refname : Option String)
    (metric comparison : String) : Except CpError SkillReturn :=
  if self.reference.length = 0 then .error .datasetError
  else
    match refname with
    | some r =>
      match self.computeMetricRef r metric comparison with
      | .error e => .error e
      | .ok v => .ok (.single v)
    | none =>
      if self.reference.length = 1 then
        match self.computeMetricRef ((self.reference.map Prod.fst).headD "")
            metric comparison with
        | .error e => .error e
        | .ok v => .ok (.single v)
      else
        match self.metricLoop metric comparison self.reference with
        | .error e => .error e
        | .ok l => .ok (.mapping l)

/-- The single-reference block of HindcastEnsemble.compute_uninitialized:
drop lists computed with init false, delegation to the external
compute_uninitialized on the variable-aligned datasets. -/
def HindcastEnsemble.computeUninitRef (self : HindcastEnsemble)
    (r metric comparison : String) : Except CpError CompResult :=
  match self._vars_to_drop r false with
  | .error e => .error e
  | .ok dp =>
    match self.getReference r with
    | .error e => .error e
    | .ok ds =>
      .ok (.uninitialized ((dsGet self.uninitialized).drop dp.1) (ds.drop dp.2)
        metric comparison)

/-- The all-references loop of HindcastEnsemble.compute_uninitialized. -/
def HindcastEnsemble.uninitLoop (self : HindcastEnsemble) (metric comparison : String) :
    List (String × Dataset) → Except CpError (List (String × CompResult))
  | [] => .ok []
  | p :: ps =>
    match self.computeUninitRef p.1 metric comparison with
    | .error e => .error e
    | .ok v =>
      match self.uninitLoop metric comparison ps with
      | .error e => .error e
      | .ok l => .ok ((p.1, v) :: l)

/-- HindcastEnsemble.compute_uninitialized: DatasetError when no
uninitialized dataset is present (the reference registry is never
checked for emptiness); then the same single/all-references branching
as compute_metric, with drop lists computed against the uninitialized
dataset. -/
def HindcastEnsemble.compute_uninitialized (self : HindcastEnsemble)
    (refname : Option String) (metric comparison : String) : Except CpError SkillReturn :=
  if dslen self.uninitialized = 0 then .error .datasetError
  else
    match refname with
    | some r =>
      match self.computeUninitRef r metric comparison with
      | .error e => .error e
      | .ok v => .ok (.single v)
    | none =>
      if self.reference.length = 1 then
        match self.computeUninitRef ((self.reference.map Prod.fst).headD "")
            metric comparison with
        | .error e => .error e
        | .ok v => .ok (.single v)
      else
        match self.uninitLoop metric comparison self.reference with
        | .error e => .error e
        | .ok l => .ok (.mapping l)

/-- HindcastEnsemble.compute_persistence: DatasetError when the
reference registry is empty; computes the nlags default but, as in the
source, never passes it on; with refname given delegates to the
external compute_persistence with (initialized, reference, metric) —
no variable-drop filtering on this path — and with refname omitted
loops over all references into a name-keyed mapping. -/
def HindcastEnsemble.compute_persistence (self : HindcastEnsemble)
    (refname : Option String) (nlags : Option Nat) (metric : String) :
    Except CpError SkillReturn :=
  if self.reference.length = 0 then .error .datasetError
  else
    let _nlags := nlags.getD self.initialized.lead_size
    match refname with
    | some r =>
      match self.reference.lookup r with
      | some d => .ok (.single (.persistence self.initialized d metric))
      | none => .error (.keyError r)
    | none =>
      .ok (.mapping (self.reference.map
        (fun p => (p.1, .persistence self.initialized (dictGet self.reference p.1) metric))))

/-- The spec's description of the dimension set a reference must carry:
the initialized dimensions with init renamed to time and lead/member
removed.  Stated with Finset operations, to be compared with the
list-manipulating source computation. -/
def specRefDims (init : Dataset) : Finset String :=
  (init.dims.toFinset.image (fun d => if d = "init" then "time" else d)) \ {"lead", "member"}

/-- The spec's symmetric difference of the candidate's dimension set
and the expected reference dimension set. -/
def specMismatch (init ref : Dataset) : Finset String :=
  (ref.dims.toFinset \ specRefDims init) ∪ (specRefDims init \ ref.dims.toFinset)

/- Concrete instances used by witnesses and counterexamples. -/

/-- A well-formed initialized dataset (dims init, lead, member). -/
def dsInitEx : Dataset := ⟨["init", "lead", "member"], ["SST", "SALT"], 3⟩

/-- A matching reference/control dataset carrying SST. -/
def dsRefEx : Dataset := ⟨["time"], ["SST"], 3⟩

/-- A second matching reference dataset carrying SALT. -/
def dsRef2Ex : Dataset := ⟨["time"], ["SALT"], 3⟩

/-- A candidate with a mismatched dimension set. -/
def dsBadDims : Dataset := ⟨["space"], ["SST"], 0⟩

/-- A candidate sharing no variable with dsInitEx. -/
def dsBadVars : Dataset := ⟨["time"], ["TAUX"], 0⟩

/-- A dataset lacking the lead dimension. -/
def dsNoLead : Dataset := ⟨["init"], ["SST"], 0⟩

/-- A HindcastEnsemble with one reference. -/
def hcEx : HindcastEnsemble := ⟨dsInitEx, none, [("obs", dsRefEx)]⟩

/-- A HindcastEnsemble with two references. -/
def hcEx2 : HindcastEnsemble := ⟨dsInitEx, none, [("obs", dsRefEx), ("recon", dsRef2Ex)]⟩

/-- A HindcastEnsemble with no references. -/
def hcEmpty : HindcastEnsemble := ⟨dsInitEx, none, []⟩

/-- A HindcastEnsemble with an uninitialized dataset but no references. -/
def hcUninitNoRef : HindcastEnsemble := ⟨dsInitEx, some dsRefEx, []⟩

/-- A PerfectModelEnsemble with a control. -/
def pmEx : PerfectModelEnsemble := ⟨dsInitEx, none, some dsRefEx⟩

/-- A PerfectModelEnsemble with a control and an uninitialized run. -/
def pmExU : PerfectModelEnsemble := ⟨dsInitEx, some dsRefEx, some dsRefEx⟩

/-- A PerfectModelEnsemble without a control. -/
def pmNoCtrl : PerfectModelEnsemble := ⟨dsInitEx, none, none⟩

/-- A reachable PerfectModelEnsemble (its control shares variable a
with the initialized dataset, so add_control accepts it) on which the
control holds a variable, c, absent from the initialized dataset. -/
def pmMismatchVars : PerfectModelEnsemble :=
  ⟨⟨["init", "lead"], ["a", "b"], 1⟩, none, some ⟨["time"], ["a", "c"], 1⟩⟩

/-- A control carrying both variables of dsInitEx. -/
def dsCtrl2 : Dataset := ⟨["time"], ["SST", "SALT"], 3⟩

/-- A PerfectModelEnsemble whose control variables all appear in the
initialized dataset. -/
def pmBoth : PerfectModelEnsemble := ⟨dsInitEx, none, some dsCtrl2⟩

/-- A PerfectModelEnsemble whose initialized dataset has exactly one
data variable. -/
def pmSingle : PerfectModelEnsemble := ⟨⟨["init", "lead"], ["SST"], 2⟩, none, some dsRefEx⟩

/- Helper lemmas (shared). -/

/-- A key bound in an association list has a successful lookup. -/
theorem lookup_isSome_of_mem (l : List (String × Dataset)) (k : String) (d : Dataset)
    (hm : (k, d) ∈ l) : ∃ d2, l.lookup k = some d2 := by
  induction l with
  | nil => cases hm
  | cons q t ih =>
    obtain ⟨qk, qd⟩ := q
    by_cases hq : k = qk
    · exact ⟨qd, by simp [List.lookup, hq]⟩
    · have hqb : (k == qk) = false := beq_eq_false_iff_ne.mpr hq
      rcases List.mem_cons.mp hm with h1 | h2
      · exact absurd (congrArg Prod.fst h1) hq
      · obtain ⟨d2, hd2⟩ := ih h2
        exact ⟨d2, by simp [List.lookup, hqb, hd2]⟩

/-- With duplicate-free keys, lookup returns the bound value. -/
theorem lookup_eq_of_mem_nodup (l : List (String × Dataset)) (k : String) (d : Dataset)
    (hnd : (l.map Prod.fst).Nodup) (hm : (k, d) ∈ l) : l.lookup k = some d := by
  induction l with
  | nil => cases hm
  | cons q t ih =>
    obtain ⟨qk, qd⟩ := q
    rw [List.map_cons, List.nodup_cons] at hnd
    rcases List.mem_cons.mp hm with h1 | h2
    · have hk : k = qk := congrArg Prod.fst h1
      have hd : d = qd := congrArg Prod.snd h1
      subst hk; subst hd
      simp [List.lookup]
    · have hq : k ≠ qk := by
        intro hqeq
        subst hqeq
        exact hnd.1 (List.mem_map.mpr ⟨(k, d), h2, rfl⟩)
      have hqb : (k == qk) = false := beq_eq_false_iff_ne.mpr hq
      simp [List.lookup, hqb, ih hnd.2 h2]

/-- Splitting the paired erase-fold of _vars_to_drop into two list folds. -/
theorem foldl_pair_split (l : List String) : ∀ xs ys : List String,
    l.foldl (fun p v => (p.1.erase v, p.2.erase v)) (xs, ys) =
      (l.foldl List.erase xs, l.foldl List.erase ys) := by
  induction l with
  | nil => intro xs ys; rfl
  | cons a t ih =>
    intro xs ys
    simpa [List.foldl_cons] using ih (xs.erase a) (ys.erase a)

/-- Membership after erasing every element of l once from a
duplicate-free list. -/
theorem mem_foldl_erase (l : List String) : ∀ xs : List String, xs.Nodup → ∀ a : String,
    (a ∈ l.foldl List.erase xs ↔ a ∈ xs ∧ a ∉ l) := by
  induction l with
  | nil => intro xs _ a; simp
  | cons b t ih =>
    intro xs hxs a
    rw [List.foldl_cons, ih (xs.erase b) (hxs.erase b)]
    constructor
    · rintro ⟨h1, h2⟩
      have h3 := (List.Nodup.mem_erase_iff hxs).mp h1
      refine ⟨h3.2, ?_⟩
      simp only [List.mem_cons, not_or]
      exact ⟨h3.1, h2⟩
    · rintro ⟨h1, h2⟩
      simp only [List.mem_cons, not_or] at h2
      exact ⟨(List.Nodup.mem_erase_iff hxs).mpr ⟨h2.1, h1⟩, h2.2⟩

/-- The two lists dropLists returns are, as sets, the two variable-set
differences. -/
theorem dropLists_sets (xs ys : List String) (hx : xs.Nodup) (hy : ys.Nodup) :
    (dropLists xs ys).1.toFinset = xs.toFinset \ ys.toFinset ∧
    (dropLists xs ys).2.toFinset = ys.toFinset \ xs.toFinset := by
  unfold dropLists
  rw [foldl_pair_split]
  constructor <;> ext a <;>
    simp [List.mem_toFinset, mem_foldl_erase _ _ hx, mem_foldl_erase _ _ hy,
      List.mem_dedup, List.mem_filter, decide_eq_true_eq] <;>
    tauto

/-- _vars_to_drop on the initialized side with a stored reference. -/
theorem vars_to_drop_ok_of_lookup (h : HindcastEnsemble) (r : String) (d : Dataset)
    (hl : h.reference.lookup r = some d) :
    h._vars_to_drop r true = .ok (dropLists h.initialized.data_vars d.data_vars) := by
  simp [HindcastEnsemble._vars_to_drop, HindcastEnsemble.getReference, hl]

/-- The single-reference compute_metric block on a stored reference. -/
theorem computeMetricRef_ok (h : HindcastEnsemble) (r m c : String) (d : Dataset)
    (hl : h.reference.lookup r = some d) :
    h.computeMetricRef r m c =
      .ok (.hindcast (h.initialized.drop (dropLists h.initialized.data_vars d.data_vars).1)
        (d.drop (dropLists h.initialized.data_vars d.data_vars).2) m c) := by
  simp [HindcastEnsemble.computeMetricRef, vars_to_drop_ok_of_lookup h r d hl,
    HindcastEnsemble.getReference, hl]

/-- The all-references compute_metric loop succeeds on any entry list
whose keys are stored in the registry, yields one entry per input key,
and each value is the single-reference result for its key. -/
theorem metricLoop_ok (h : HindcastEnsemble) (m c : String) :
    ∀ l : List (String × Dataset), (∀ p ∈ l, ∃ d, h.reference.lookup p.1 = some d) →
      ∃ out, h.metricLoop m c l = .ok out ∧
        out.map Prod.fst = l.map Prod.fst ∧
        ∀ q ∈ out, h.computeMetricRef q.1 m c = .ok q.2 := by
  intro l
  induction l with
  | nil => intro _; exact ⟨[], rfl, rfl, by simp⟩
  | cons p ps ih =>
    intro hall
    obtain ⟨d, hd⟩ := hall p (List.mem_cons_self p ps)
    obtain ⟨out, hout, hkeys, hvals⟩ := ih (fun q hq => hall q (List.mem_cons_of_mem p hq))
    have hV := computeMetricRef_ok h p.1 m c d hd
    refine ⟨(p.1, h.metricValue p.1 m c) :: out, ?_, ?_, ?_⟩
    · simp [HindcastEnsemble.metricLoop, hV, hout, HindcastEnsemble.metricValue]
    · simp [hkeys]
    · intro q hq
      rcases List.mem_cons.mp hq with h1 | h2
      · rw [h1]
        simp [HindcastEnsemble.metricValue, hV]
      · exact hvals q h2

/-- The bootstrap loop succeeds when every visited variable exists in
both datasets, producing one engine call per variable. -/
theorem bootstrapLoop_ok (initialized c : Dataset) (m cmp : String) (sig nb : Nat)
    (ps : Option Nat) : ∀ l : List String, (∀ v ∈ l, v ∈ initialized.data_vars) →
      (∀ v ∈ l, v ∈ c.data_vars) →
      bootstrapLoop initialized c m cmp sig nb ps l =
        .ok (l.map (fun v => (v, .bootstrapPM ⟨initialized, v⟩ ⟨c, v⟩ m cmp sig nb ps))) := by
  intro l
  induction l with
  | nil => intro _ _; rfl
  | cons v vs ih =>
    intro h1 h2
    have hv1 := h1 v (List.mem_cons_self v vs)
    have hv2 := h2 v (List.mem_cons_self v vs)
    have ht := ih (fun w hw => h1 w (List.mem_cons_of_mem v hw))
      (fun w hw => h2 w (List.mem_cons_of_mem v hw))
    simp [bootstrapLoop, Dataset.getVar, hv1, hv2, ht]

/-- The list-manipulating dimension normalization of
_check_reference_dimensions agrees, as a set, with the spec's
rename-then-remove description. -/
theorem rename_erase_toFinset (init : Dataset) (hnd : init.dims.Nodup)
    (ht : "time" ∉ init.dims) :
    (((init.dims.map (fun d => if d = "init" then "time" else d)).erase "lead").erase
        "member").toFinset = specRefDims init := by
  have hinj : ∀ x ∈ init.dims, ∀ y ∈ init.dims,
      (if x = "init" then "time" else x) = (if y = "init" then "time" else y) → x = y := by
    intro x hx y hy hxy
    by_cases hx1 : x = "init" <;> by_cases hy1 : y = "init"
    · rw [hx1, hy1]
    · rw [if_pos hx1, if_neg hy1] at hxy
      exact absurd (hxy ▸ hy) ht
    · rw [if_neg hx1, if_pos hy1] at hxy
      exact absurd (hxy ▸ hx) ht
    · rwa [if_neg hx1, if_neg hy1] at hxy
  have hmap : (init.dims.map (fun d => if d = "init" then "time" else d)).Nodup :=
    List.Nodup.map_on hinj hnd
  have herase : ((init.dims.map (fun d => if d = "init" then "time" else d)).erase
      "lead").Nodup := hmap.erase _
  ext a
  simp only [List.mem_toFinset, List.Nodup.mem_erase_iff herase,
    List.Nodup.mem_erase_iff hmap, List.mem_map, specRefDims, Finset.mem_sdiff,
    Finset.mem_image, Finset.mem_insert, Finset.mem_singleton, not_or]
  tauto

/- Claim theorems. -/

/-- Claim C7: when add_control, add_reference or add_uninitialized
raises (returns an error), the ensemble state is unchanged — all
validation runs before any assignment. -/
theorem add_error_no_mutation :
    (∀ (s : PerfectModelEnsemble) (x : Dataset) (e : CpError),
        (s.add_control x).2 = some e → (s.add_control x).1 = s)
  ∧ (∀ (s : HindcastEnsemble) (x : Dataset) (n : String) (e : CpError),
        (s.add_reference x n).2 = some e → (s.add_reference x n).1 = s)
  ∧ (∀ (s : HindcastEnsemble) (x : Dataset) (e : CpError),
        (s.add_uninitialized x).2 = some e → (s.add_uninitialized x).1 = s) := by
  refine ⟨?_, ?_, ?_⟩
  · intro s x e h
    cases h1 : _check_reference_dimensions s.initialized x with
    | error e1 => simp [PerfectModelEnsemble.add_control, h1]
    | ok u =>
      cases h2 : _check_reference_vars_match_initialized s.initialized x with
      | error e2 => simp [PerfectModelEnsemble.add_control, h1, h2]
      | ok u2 => simp [PerfectModelEnsemble.add_control, h1, h2] at h
  · intro s x n e h
    cases h1 : _check_reference_dimensions s.initialized x with
    | error e1 => simp [HindcastEnsemble.add_reference, h1]
    | ok u =>
      cases h2 : _check_reference_vars_match_initialized s.initialized x with
      | error e2 => simp [HindcastEnsemble.add_reference, h1, h2]
      | ok u2 => simp [HindcastEnsemble.add_reference, h1, h2] at h
  · intro s x e h
    cases h1 : _check_reference_dimensions s.initialized x with
    | error e1 => simp [HindcastEnsemble.add_uninitialized, h1]
    | ok u =>
      cases h2 : _check_reference_vars_match_initialized s.initialized x with
      | error e2 => simp [HindcastEnsemble.add_uninitialized, h1, h2]
      | ok u2 => simp [HindcastEnsemble.add_uninitialized, h1, h2] at h

/-- Concrete instances of add_error_no_mutation: a dimension failure on
add_control/add_uninitialized and a variable failure on add_reference
leave the ensembles untouched. -/
theorem add_error_no_mutation_witness :
    (pmEx.add_control dsBadDims).2 =
      some (.dimensionErrorMismatch {"space", "time"})
  ∧ (pmEx.add_control dsBadDims).1 = pmEx
  ∧ (hcEx.add_reference dsBadVars "r2").1 = hcEx
  ∧ (hcEx.add_uninitialized dsBadDims).1 = hcEx := by
  refine ⟨by decide, ?_, ?_, ?_⟩
  · exact add_error_no_mutation.1 pmEx dsBadDims
      (.dimensionErrorMismatch {"space", "time"}) (by decide)
  · exact add_error_no_mutation.2.1 hcEx dsBadVars "r2"
      (.variableError ["SST", "SALT"] ["TAUX"]) (by decide)
  · exact add_error_no_mutation.2.2 hcEx dsBadDims
      (.dimensionErrorMismatch {"space", "time"}) (by decide)

/-- Claim C9: constructing a PredictionEnsemble (either subclass)
raises DimensionError exactly when init or lead is missing from the
input's dimensions; otherwise it succeeds and stores the input as
initialized (with empty satellite containers). -/
theorem prediction_ensemble_construction :
    (∀ x : Dataset, ("init" ∉ x.dims ∨ "lead" ∉ x.dims) →
        mkPerfectModelEnsemble x = .error .dimensionErrorMissingInitLead ∧
        mkHindcastEnsemble x = .error .dimensionErrorMissingInitLead)
  ∧ (∀ x : Dataset, "init" ∈ x.dims → "lead" ∈ x.dims →
        mkPerfectModelEnsemble x = .ok ⟨x, none, none⟩ ∧
        mkHindcastEnsemble x = .ok ⟨x, none, []⟩) := by
  constructor
  · intro x hx
    have hc : ¬("init" ∈ x.dims ∧ "lead" ∈ x.dims) := by tauto
    simp [mkPerfectModelEnsemble, mkHindcastEnsemble,
      _check_prediction_ensemble_dimensions, hc]
  · intro x h1 h2
    simp [mkPerfectModelEnsemble, mkHindcastEnsemble,
      _check_prediction_ensemble_dimensions, h1, h2]

/-- Concrete instances of prediction_ensemble_construction: a dataset
without lead is rejected, dsInitEx is accepted and stored. -/
theorem prediction_ensemble_construction_witness :
    mkPerfectModelEnsemble dsNoLead = .error .dimensionErrorMissingInitLead ∧
    mkHindcastEnsemble dsInitEx = .ok ⟨dsInitEx, none, []⟩ := by
  constructor
  · exact (prediction_ensemble_construction.1 dsNoLead (by decide)).1
  · exact (prediction_ensemble_construction.2 dsInitEx (by decide) (by decide)).2

/-- Claim C10: the shared-variable check raises VariableError exactly
when the variable-name sets are disjoint, the error carrying both
variable lists; a single shared variable suffices to pass. -/
theorem reference_vars_check :
    (∀ init ref : Dataset, (∃ v, v ∈ init.data_vars ∧ v ∈ ref.data_vars) →
        _check_reference_vars_match_initialized init ref = .ok ())
  ∧ (∀ init ref : Dataset, (¬ ∃ v, v ∈ init.data_vars ∧ v ∈ ref.data_vars) →
        _check_reference_vars_match_initialized init ref =
          .error (.variableError init.data_vars ref.data_vars)) := by
  constructor
  · rintro init ref ⟨v, hv1, hv2⟩
    have hne : init.data_vars.toFinset ∩ ref.data_vars.toFinset ≠ ∅ := by
      intro hempty
      have hv : v ∈ init.data_vars.toFinset ∩ ref.data_vars.toFinset := by
        rw [Finset.mem_inter, List.mem_toFinset, List.mem_toFinset]
        exact ⟨hv1, hv2⟩
      rw [hempty] at hv
      exact absurd hv (Finset.not_mem_empty v)
    simp [_check_reference_vars_match_initialized, hne]
  · intro init ref h
    have hempty : init.data_vars.toFinset ∩ ref.data_vars.toFinset = ∅ := by
      rw [Finset.eq_empty_iff_forall_not_mem]
      intro a ha
      rw [Finset.mem_inter, List.mem_toFinset, List.mem_toFinset] at ha
      exact h ⟨a, ha.1, ha.2⟩
    simp [_check_reference_vars_match_initialized, hempty]

/-- Concrete instances of reference_vars_check: dsRefEx shares SST
with dsInitEx and passes; dsBadVars shares nothing and is rejected
with both variable lists in the error. -/
theorem reference_vars_check_witness :
    _check_reference_vars_match_initialized dsInitEx dsRefEx = .ok () ∧
    _check_reference_vars_match_initialized dsInitEx dsBadVars =
      .error (.variableError ["SST", "SALT"] ["TAUX"]) := by
  constructor
  · exact reference_vars_check.1 dsInitEx dsRefEx ⟨"SST", by decide, by decide⟩
  · exact reference_vars_check.2 dsInitEx dsBadVars (by decide)

/-- Claim C8: on PerfectModelEnsemble, compute_metric and
compute_persistence raise DatasetError exactly when no control is held
(the empty sentinel), compute_uninitialized raises DatasetError exactly
when no uninitialized dataset is held, and otherwise each delegates to
its engine; moreover a successful add_control always leaves a
nonempty control, so absent is the same as never-added. -/
theorem pm_prerequisite_guards :
    (∀ (pm : PerfectModelEnsemble) (m c : String), dslen pm.control = 0 →
        pm.compute_metric m c = .error .datasetError)
  ∧ (∀ (pm : PerfectModelEnsemble) (m c : String), dslen pm.control ≠ 0 →
        pm.compute_metric m c = .ok (.perfectModel pm.initialized (dsGet pm.control) m c))
  ∧ (∀ (pm : PerfectModelEnsemble) (n : Option Nat) (m : String), dslen pm.control = 0 →
        pm.compute_persistence n m = .error .datasetError)
  ∧ (∀ (pm : PerfectModelEnsemble) (n : Option Nat) (m : String), dslen pm.control ≠ 0 →
        pm.compute_persistence n m =
          .ok (.persistence pm.initialized (dsGet pm.control) m))
  ∧ (∀ (pm : PerfectModelEnsemble) (m c : String), dslen pm.uninitialized = 0 →
        pm.compute_uninitialized m c = .error .datasetError)
  ∧ (∀ (pm : PerfectModelEnsemble) (m c : String), dslen pm.uninitialized ≠ 0 →
        pm.compute_uninitialized m c =
          .ok (.perfectModel (dsGet pm.uninitialized) (dsGet pm.control) m c))
  ∧ (∀ (pm : PerfectModelEnsemble) (x : Dataset), (pm.add_control x).2 = none →
        dslen (pm.add_control x).1.control ≠ 0) := by
  refine ⟨?_, ?_, ?_, ?_, ?_, ?_, ?_⟩
  · intro pm m c h; simp [PerfectModelEnsemble.compute_metric, h]
  · intro pm m c h; simp [PerfectModelEnsemble.compute_metric, h]
  · intro pm n m h; simp [PerfectModelEnsemble.compute_persistence, h]
  · intro pm n m h; simp [PerfectModelEnsemble.compute_persistence, h]
  · intro pm m c h; simp [PerfectModelEnsemble.compute_uninitialized, h]
  · intro pm m c h; simp [PerfectModelEnsemble.compute_uninitialized, h]
  · intro pm x h
    cases h1 : _check_reference_dimensions pm.initialized x with
    | error e1 => simp [PerfectModelEnsemble.add_control, h1] at h
    | ok u =>
      cases h2 : _check_reference_vars_match_initialized pm.initialized x with
      | error e2 => simp [PerfectModelEnsemble.add_control, h1, h2] at h
      | ok u2 =>
        have hne : pm.initialized.data_vars.toFinset ∩ x.data_vars.toFinset ≠ ∅ := by
          intro hempty
          simp [_check_reference_vars_match_initialized, hempty] at h2
        have hx : x.data_vars ≠ [] := by
          intro hnil
          apply hne
          rw [hnil]
          simp
        simp [PerfectModelEnsemble.add_control, h1, h2, dslen]
        simpa [List.length_eq_zero] using hx

/-- Concrete instances of pm_prerequisite_guards: the guards fire on
pmNoCtrl, the delegations happen on pmEx/pmExU, and adding dsRefEx as
control leaves a nonempty control. -/
theorem pm_prerequisite_guards_witness :
    pmNoCtrl.compute_metric "pearson_r" "m2m" = .error .datasetError
  ∧ pmEx.compute_metric "pearson_r" "m2m" =
      .ok (.perfectModel dsInitEx dsRefEx "pearson_r" "m2m")
  ∧ pmNoCtrl.compute_persistence none "pearson_r" = .error .datasetError
  ∧ pmEx.compute_persistence none "pearson_r" =
      .ok (.persistence dsInitEx dsRefEx "pearson_r")
  ∧ pmNoCtrl.compute_uninitialized "pearson_r" "m2e" = .error .datasetError
  ∧ pmExU.compute_uninitialized "pearson_r" "m2e" =
      .ok (.perfectModel dsRefEx dsRefEx "pearson_r" "m2e")
  ∧ dslen (pmNoCtrl.add_control dsRefEx).1.control ≠ 0 := by
  refine ⟨?_, ?_, ?_, ?_, ?_, ?_, ?_⟩
  · exact pm_prerequisite_guards.1 pmNoCtrl "pearson_r" "m2m" (by decide)
  · exact pm_prerequisite_guards.2.1 pmEx "pearson_r" "m2m" (by decide)
  · exact pm_prerequisite_guards.2.2.1 pmNoCtrl none "pearson_r" (by decide)
  · exact pm_prerequisite_guards.2.2.2.1 pmEx none "pearson_r" (by decide)
  · exact pm_prerequisite_guards.2.2.2.2.1 pmNoCtrl "pearson_r" "m2e" (by decide)
  · exact pm_prerequisite_guards.2.2.2.2.2.1 pmExU "pearson_r" "m2e" (by decide)
  · exact pm_prerequisite_guards.2.2.2.2.2.2 pmNoCtrl dsRefEx (by decide)

/-- Claim C6: HindcastEnsemble.compute_uninitialized only guards on the
uninitialized dataset; with it present and an empty reference registry
the call raises nothing and returns an empty mapping. -/
theorem hindcast_uninit_no_reference_check :
    ∀ (h : HindcastEnsemble) (u : Dataset) (m c : String),
      h.uninitialized = some u → u.data_vars ≠ [] → h.reference = [] →
      h.compute_uninitialized none m c = .ok (.mapping []) := by
  intro h u m c hu hvars href
  have h1 : dslen h.uninitialized ≠ 0 := by
    simp [hu, dslen, List.length_eq_zero, hvars]
  simp [HindcastEnsemble.compute_uninitialized, h1, href, HindcastEnsemble.uninitLoop]

/-- Concrete instance of hindcast_uninit_no_reference_check on
hcUninitNoRef. -/
theorem hindcast_uninit_no_reference_check_witness :
    hcUninitNoRef.compute_uninitialized none "pearson_r" "e2r" = .ok (.mapping []) :=
  hindcast_uninit_no_reference_check hcUninitNoRef dsRefEx "pearson_r" "e2r" rfl
    (by decide) rfl

/-- Claim C2: both compute_persistence implementations delegate
exactly (initialized, control-or-reference, metric) to the persistence
engine — the full datasets, no variable-drop filtering — and never
pass nlags on, so the result does not depend on the nlags argument. -/
theorem compute_persistence_delegation :
    (∀ (pm : PerfectModelEnsemble) (c : Dataset) (n : Option Nat) (m : String),
        pm.control = some c → c.data_vars ≠ [] →
        pm.compute_persistence n m = .ok (.persistence pm.initialized c m))
  ∧ (∀ (pm : PerfectModelEnsemble) (n1 n2 : Option Nat) (m : String),
        pm.compute_persistence n1 m = pm.compute_persistence n2 m)
  ∧ (∀ (h : HindcastEnsemble) (r : String) (d : Dataset) (n : Option Nat) (m : String),
        h.reference.lookup r = some d →
        h.compute_persistence (some r) n m =
          .ok (.single (.persistence h.initialized d m)))
  ∧ (∀ (h : HindcastEnsemble) (n : Option Nat) (m : String),
        (h.reference.map Prod.fst).Nodup → h.reference ≠ [] →
        h.compute_persistence none n m =
          .ok (.mapping (h.reference.map
            (fun p => (p.1, .persistence h.initialized p.2 m)))))
  ∧ (∀ (h : HindcastEnsemble) (rn : Option String) (n1 n2 : Option Nat) (m : String),
        h.compute_persistence rn n1 m = h.compute_persistence rn n2 m) := by
  refine ⟨?_, ?_, ?_, ?_, ?_⟩
  · intro pm c n m hc hvars
    have h1 : dslen (some c) ≠ 0 := by
      simp [dslen, List.length_eq_zero, hvars]
    simp [PerfectModelEnsemble.compute_persistence, hc, h1, dsGet]
  · intro pm n1 n2 m
    rfl
  · intro h r d n m hl
    have hne : h.reference.length ≠ 0 := by
      intro h0
      rw [List.length_eq_zero] at h0
      rw [h0] at hl
      simp [List.lookup] at hl
    simp [HindcastEnsemble.compute_persistence, hne, hl]
  · intro h n m hnd hne
    have hlen : h.reference.length ≠ 0 := by
      simpa [List.length_eq_zero] using hne
    have hgoal : ∀ p ∈ h.reference,
        (p.1, CompResult.persistence h.initialized (dictGet h.reference p.1) m) =
        (p.1, CompResult.persistence h.initialized p.2 m) := by
      intro p hp
      have hlk := lookup_eq_of_mem_nodup h.reference p.1 p.2 hnd (by simpa using hp)
      simp [dictGet, hlk, dsGet]
    have hstep : h.compute_persistence none n m =
        .ok (.mapping (h.reference.map
          (fun p => (p.1, .persistence h.initialized (dictGet h.reference p.1) m)))) := by
      simp [HindcastEnsemble.compute_persistence, hlen]
    rw [hstep, List.map_congr_left hgoal]
  · intro h rn n1 n2 m
    rfl

/-- Concrete instances of compute_persistence_delegation: the engine
receives the undropped datasets on both ensemble kinds, and two
different nlags values give identical results. -/
theorem compute_persistence_delegation_witness :
    pmEx.compute_persistence (some 7) "pearson_r" =
      .ok (.persistence dsInitEx dsRefEx "pearson_r")
  ∧ pmEx.compute_persistence none "pearson_r" = pmEx.compute_persistence (some 99) "pearson_r"
  ∧ hcEx.compute_persistence (some "obs") none "pearson_r" =
      .ok (.single (.persistence dsInitEx dsRefEx "pearson_r"))
  ∧ hcEx2.compute_persistence none none "pearson_r" =
      .ok (.mapping [("obs", .persistence dsInitEx dsRefEx "pearson_r"),
        ("recon", .persistence dsInitEx dsRef2Ex "pearson_r")])
  ∧ hcEx2.compute_persistence none none "pearson_r" =
      hcEx2.compute_persistence none (some 4) "pearson_r" := by
  refine ⟨?_, ?_, ?_, ?_, ?_⟩
  · exact compute_persistence_delegation.1 pmEx dsRefEx (some 7) "pearson_r" rfl (by decide)
  · exact compute_persistence_delegation.2.1 pmEx none (some 99) "pearson_r"
  · exact compute_persistence_delegation.2.2.1 hcEx "obs" dsRefEx none "pearson_r" (by decide)
  · exact compute_persistence_delegation.2.2.2.1 hcEx2 none "pearson_r" (by decide) (by decide)
  · exact compute_persistence_delegation.2.2.2.2 hcEx2 none none (some 4) "pearson_r"

/-- Claim C1: HindcastEnsemble.compute_metric raises DatasetError on an
empty registry; with refname omitted and one reference it returns the
single (non-mapping) result, identical to naming that reference; with
two or more references it returns a mapping keyed by the reference
names whose values are the single-reference results. -/
theorem hindcast_compute_metric_dispatch :
    (∀ (h : HindcastEnsemble) (rn : Option String) (m c : String), h.reference = [] →
        h.compute_metric rn m c = .error .datasetError)
  ∧ (∀ (h : HindcastEnsemble) (k : String) (d : Dataset) (m c : String),
        h.reference = [(k, d)] →
        h.compute_metric none m c = h.compute_metric (some k) m c ∧
        ∃ res, h.compute_metric none m c = .ok (.single res))
  ∧ (∀ (h : HindcastEnsemble) (m c : String), 2 ≤ h.reference.length →
        ∃ out, h.compute_metric none m c = .ok (.mapping out) ∧
          out.map Prod.fst = h.reference.map Prod.fst ∧
          ∀ q ∈ out, h.compute_metric (some q.1) m c = .ok (.single q.2)) := by
  refine ⟨?_, ?_, ?_⟩
  · intro h rn m c href
    simp [HindcastEnsemble.compute_metric, href]
  · intro h k d m c href
    have hlk : h.reference.lookup k = some d := by simp [href, List.lookup]
    have hV := computeMetricRef_ok h k m c d hlk
    constructor
    · simp [HindcastEnsemble.compute_metric, href, hV]
    · refine ⟨.hindcast (h.initialized.drop (dropLists h.initialized.data_vars d.data_vars).1)
        (d.drop (dropLists h.initialized.data_vars d.data_vars).2) m c, ?_⟩
      simp [HindcastEnsemble.compute_metric, href, hV]
  · intro h m c hlen
    have hall : ∀ p ∈ h.reference, ∃ d, h.reference.lookup p.1 = some d := by
      intro p hp
      exact lookup_isSome_of_mem h.reference p.1 p.2 (by simpa using hp)
    obtain ⟨out, hout, hkeys, hvals⟩ := metricLoop_ok h m c h.reference hall
    have h0 : h.reference.length ≠ 0 := by omega
    have h1 : h.reference.length ≠ 1 := by omega
    refine ⟨out, ?_, hkeys, ?_⟩
    · simp [HindcastEnsemble.compute_metric, h0, h1, hout]
    · intro q hq
      have hv := hvals q hq
      simp [HindcastEnsemble.compute_metric, h0, hv]

/-- Concrete instances of hindcast_compute_metric_dispatch on zero,
one and two stored references. -/
theorem hindcast_compute_metric_dispatch_witness :
    hcEmpty.compute_metric none "pearson_r" "e2r" = .error .datasetError
  ∧ hcEx.compute_metric none "pearson_r" "e2r" =
      hcEx.compute_metric (some "obs") "pearson_r" "e2r"
  ∧ (∃ out, hcEx2.compute_metric none "pearson_r" "e2r" = .ok (.mapping out) ∧
      out.map Prod.fst = ["obs", "recon"]) := by
  refine ⟨?_, ?_, ?_⟩
  · exact hindcast_compute_metric_dispatch.1 hcEmpty none "pearson_r" "e2r" rfl
  · exact (hindcast_compute_metric_dispatch.2.1 hcEx "obs" dsRefEx "pearson_r" "e2r" rfl).1
  · obtain ⟨out, h1, h2, _⟩ :=
      hindcast_compute_metric_dispatch.2.2 hcEx2 "pearson_r" "e2r" (by decide)
    refine ⟨out, h1, ?_⟩
    rw [h2]
    rfl

/-- Claim C5: _vars_to_drop returns, up to iteration order, the
variables of the chosen side (initialized, or uninitialized when init
is false) absent from the reference and the reference variables absent
from the chosen side; on initialized vars SST, SALT against reference
var SST it returns exactly the pair of lists with SALT and nothing. -/
theorem vars_to_drop_spec :
    (∀ (h : HindcastEnsemble) (r : String) (d : Dataset),
        h.reference.lookup r = some d →
        h.initialized.data_vars.Nodup → d.data_vars.Nodup →
        ∃ p, h._vars_to_drop r true = .ok p ∧
          p.1.toFinset = h.initialized.data_vars.toFinset \ d.data_vars.toFinset ∧
          p.2.toFinset = d.data_vars.toFinset \ h.initialized.data_vars.toFinset)
  ∧ (∀ (h : HindcastEnsemble) (r : String) (d u : Dataset),
        h.reference.lookup r = some d → h.uninitialized = some u →
        u.data_vars.Nodup → d.data_vars.Nodup →
        ∃ p, h._vars_to_drop r false = .ok p ∧
          p.1.toFinset = u.data_vars.toFinset \ d.data_vars.toFinset ∧
          p.2.toFinset = d.data_vars.toFinset \ u.data_vars.toFinset)
  ∧ hcEx._vars_to_drop "obs" true = .ok (["SALT"], []) := by
  refine ⟨?_, ?_, by rfl⟩
  · intro h r d hl h1 h2
    exact ⟨dropLists h.initialized.data_vars d.data_vars,
      vars_to_drop_ok_of_lookup h r d hl,
      (dropLists_sets _ _ h1 h2).1, (dropLists_sets _ _ h1 h2).2⟩
  · intro h r d u hl hu h1 h2
    have hok : h._vars_to_drop r false = .ok (dropLists u.data_vars d.data_vars) := by
      simp [HindcastEnsemble._vars_to_drop, hu, HindcastEnsemble.getReference, hl]
    exact ⟨dropLists u.data_vars d.data_vars, hok,
      (dropLists_sets _ _ h1 h2).1, (dropLists_sets _ _ h1 h2).2⟩

/-- Concrete instance of vars_to_drop_spec on hcEx (initialized vars
SST, SALT; reference obs with var SST). -/
theorem vars_to_drop_spec_witness :
    hcEx.reference.lookup "obs" = some dsRefEx ∧
    (∃ p, hcEx._vars_to_drop "obs" true = .ok p ∧
      p.1.toFinset = hcEx.initialized.data_vars.toFinset \ dsRefEx.data_vars.toFinset ∧
      p.2.toFinset = dsRefEx.data_vars.toFinset \ hcEx.initialized.data_vars.toFinset) :=
  ⟨by decide, vars_to_drop_spec.1 hcEx "obs" dsRefEx (by decide) (by decide) (by decide)⟩

/-- Claim C4: the reference-dimension check passes exactly when the
candidate's dimension set equals the initialized dimensions with init
renamed to time and lead/member removed, and any error it raises
reports exactly the symmetric difference of the two sets. -/
theorem reference_dimensions_check :
    ∀ (init ref : Dataset), "init" ∈ init.dims → "lead" ∈ init.dims →
      init.dims.Nodup → "time" ∉ init.dims →
      ((_check_reference_dimensions init ref = .ok ()) ↔
        ref.dims.toFinset = specRefDims init) ∧
      ((∃ e, _check_reference_dimensions init ref = .error e) ↔
        ref.dims.toFinset ≠ specRefDims init) ∧
      (∀ e, _check_reference_dimensions init ref = .error e →
        e = .dimensionErrorMismatch (specMismatch init ref)) := by
  intro init ref _hi _hl hnd ht
  have hkey := rename_erase_toFinset init hnd ht
  by_cases hc : ref.dims.toFinset = specRefDims init
  · refine ⟨?_, ?_, ?_⟩
    · simp [_check_reference_dimensions, hkey, hc]
    · simp [_check_reference_dimensions, hkey, hc]
    · intro e he
      rw [show _check_reference_dimensions init ref = .ok () from by
        simp [_check_reference_dimensions, hkey, hc]] at he
      cases he
  · refine ⟨?_, ?_, ?_⟩
    · simp [_check_reference_dimensions, hkey, hc]
    · simp [_check_reference_dimensions, hkey, hc]
    · intro e he
      rw [show _check_reference_dimensions init ref =
          .error (.dimensionErrorMismatch (specMismatch init ref)) from by
        simp [_check_reference_dimensions, hkey, hc, specMismatch]] at he
      exact (Except.error.inj he).symm

/-- Concrete instances of reference_dimensions_check: dsRefEx matches
dsInitEx's normalized dimension set and passes; dsBadDims differs and
the reported mismatch is the symmetric difference. -/
theorem reference_dimensions_check_witness :
    _check_reference_dimensions dsInitEx dsRefEx = .ok () ∧
    _check_reference_dimensions dsInitEx dsBadDims =
      .error (.dimensionErrorMismatch (specMismatch dsInitEx dsBadDims)) := by
  have hok := reference_dimensions_check dsInitEx dsRefEx
    (by decide) (by decide) (by decide) (by decide)
  have hbad := reference_dimensions_check dsInitEx dsBadDims
    (by decide) (by decide) (by decide) (by decide)
  refine ⟨hok.1.mpr (by decide), ?_⟩
  obtain ⟨e, he⟩ := hbad.2.1.mpr (by decide)
  rw [he]
  rw [hbad.2.2 e he]

/-- Claim C3 fails on the code: on the reachable ensemble
pmMismatchVars (control variables a, c; initialized variables a, b;
control present), bootstrap with var omitted hits `initialized[c]`
with c absent from the initialized dataset and raises KeyError instead
of returning a control-variable-keyed mapping. -/
theorem pm_bootstrap_counterexample :
    pmMismatchVars.bootstrap none "pearson_r" "m2e" 95 500 none =
      .error (.keyError "c") := by rfl

/-- Claim C3 amended: with a control present, bootstrap delegates one
engine call per selected variable — the given var when it exists in
both datasets; the unique initialized variable when there is exactly
one and the control carries it; otherwise one call per control
variable provided every control variable also exists in the
initialized dataset — returning a single result in the first two cases
and a control-variable-keyed mapping in the third. -/
theorem pm_bootstrap_spec :
    (∀ (pm : PerfectModelEnsemble) (c : Dataset) (v m cmp : String) (sig nb : Nat)
        (ps : Option Nat), pm.control = some c → v ∈ pm.initialized.data_vars →
        v ∈ c.data_vars →
        pm.bootstrap (some v) m cmp sig nb ps =
          .ok (.single (.bootstrapPM ⟨pm.initialized, v⟩ ⟨c, v⟩ m cmp sig nb ps)))
  ∧ (∀ (pm : PerfectModelEnsemble) (c : Dataset) (v m cmp : String) (sig nb : Nat)
        (ps : Option Nat), pm.control = some c → pm.initialized.data_vars = [v] →
        v ∈ c.data_vars →
        pm.bootstrap none m cmp sig nb ps =
          .ok (.single (.bootstrapPM ⟨pm.initialized, v⟩ ⟨c, v⟩ m cmp sig nb ps)))
  ∧ (∀ (pm : PerfectModelEnsemble) (c : Dataset) (m cmp : String) (sig nb : Nat)
        (ps : Option Nat), pm.control = some c → c.data_vars ≠ [] →
        pm.initialized.data_vars.length ≠ 1 →
        (∀ v ∈ c.data_vars, v ∈ pm.initialized.data_vars) →
        pm.bootstrap none m cmp sig nb ps =
          .ok (.mapping (c.data_vars.map
            (fun v => (v, .bootstrapPM ⟨pm.initialized, v⟩ ⟨c, v⟩ m cmp sig nb ps))))) := by
  refine ⟨?_, ?_, ?_⟩
  · intro pm c v m cmp sig nb ps hc hvi hvc
    have hlen : dslen (some c) ≠ 0 := by
      simp [dslen, List.length_eq_zero]
      exact List.ne_nil_of_mem hvc
    simp [PerfectModelEnsemble.bootstrap, hc, hlen, dsGet, Dataset.getVar, hvi, hvc]
  · intro pm c v m cmp sig nb ps hc hv hvc
    have hlen : dslen (some c) ≠ 0 := by
      simp [dslen, List.length_eq_zero]
      exact List.ne_nil_of_mem hvc
    simp [PerfectModelEnsemble.bootstrap, hc, hlen, dsGet, hv, Dataset.getVar, hvc]
  · intro pm c m cmp sig nb ps hc hvars hlen1 hsub
    have hlen : dslen (some c) ≠ 0 := by
      simp [dslen, List.length_eq_zero, hvars]
    have hloop := bootstrapLoop_ok pm.initialized c m cmp sig nb ps c.data_vars hsub
      (fun v hv => hv)
    simp [PerfectModelEnsemble.bootstrap, hc, hlen, dsGet, hlen1, hloop]

/-- Concrete instances of pm_bootstrap_spec covering all three
branches. -/
theorem pm_bootstrap_spec_witness :
    pmEx.bootstrap (some "SST") "pearson_r" "m2e" 95 500 none =
      .ok (.single (.bootstrapPM ⟨dsInitEx, "SST"⟩ ⟨dsRefEx, "SST"⟩
        "pearson_r" "m2e" 95 500 none))
  ∧ pmSingle.bootstrap none "pearson_r" "m2e" 95 500 none =
      .ok (.single (.bootstrapPM ⟨⟨["init", "lead"], ["SST"], 2⟩, "SST"⟩ ⟨dsRefEx, "SST"⟩
        "pearson_r" "m2e" 95 500 none))
  ∧ pmBoth.bootstrap none "pearson_r" "m2e" 95 500 none =
      .ok (.mapping [("SST", .bootstrapPM ⟨dsInitEx, "SST"⟩ ⟨dsCtrl2, "SST"⟩
          "pearson_r" "m2e" 95 500 none),
        ("SALT", .bootstrapPM ⟨dsInitEx, "SALT"⟩ ⟨dsCtrl2, "SALT"⟩
          "pearson_r" "m2e" 95 500 none)]) := by
  refine ⟨?_, ?_, ?_⟩
  · exact pm_bootstrap_spec.1 pmEx dsRefEx "SST" "pearson_r" "m2e" 95 500 none
      rfl (by decide) (by decide)
  · exact pm_bootstrap_spec.2.1 pmSingle dsRefEx "SST" "pearson_r" "m2e" 95 500 none
      rfl (by decide) (by decide)
  · exact pm_bootstrap_spec.2.2 pmBoth dsCtrl2 "pearson_r" "m2e" 95 500 none
      rfl (by decide) (by decide) (by decide)

end Climpred
